import Mathlib

/-- JavaScript String.prototype.includes: leadsWith sub l is true when sub
is an initial run of l. -/
def leadsWith : List Char → List Char → Bool
  | [], _ => true
  | _ :: _, [] => false
  | a :: as, b :: bs => a == b && leadsWith as bs

/-- hasSeg sub l is true when sub occurs contiguously somewhere in l. -/
def hasSeg (sub : List Char) : List Char → Bool
  | [] => leadsWith sub []
  | c :: cs => leadsWith sub (c :: cs) || hasSeg sub cs

/-- text.includes sub of JavaScript, on Lean strings. -/
def strIncludes (s sub : String) : Bool :=
  hasSeg sub.data s.data

/-- JavaScript toLowerCase, character by character. -/
def toLowerCase (s : String) : String :=
  ⟨s.data.map Char.toLower⟩

/-- The call id.replace with a dash pattern and a space replacement, as the
backend analyzer writes it: every dash becomes a space. -/
def dashesToSpaces (s : String) : String :=
  ⟨s.data.map (fun c => if c == '-' then ' ' else c)⟩

/-- JavaScript Array.prototype.join with a separator. -/
def joinWith (sep : String) : List String → String
  | [] => ""
  | [x] => x
  | x :: xs => x ++ sep ++ joinWith sep xs

example : strIncludes "login form" "form" = true := by decide
example : strIncludes "login form" "forms" = false := by decide
example : strIncludes "abc" "" = true := by decide
example : dashesToSpaces "form-validation-error" = "form validation error" := by decide
example : toLowerCase "Login Form" = "login form" := by decide
example : joinWith " " ["a", "b", "c"] = "a b c" := by decide

/-- A design node as exported by the plugin: id, name, type, visible and
the children (extractNodeData in plugin/src/code.ts; the type field is
named nodeType here because type is a keyword). -/
inductive NodeData : Type where
  | node (id name nodeType : String) (visible : Bool) (children : List NodeData)

def NodeData.name : NodeData → String
  | .node _ n _ _ _ => n

def NodeData.children : NodeData → List NodeData
  | .node _ _ _ _ cs => cs

/-- A directed navigation edge between screens. -/
structure Connection where
  triggerNodeId : String
  triggerNodeName : String
  targetFrameId : String
  targetFrameName : String
deriving DecidableEq

/-- A screen as the backend analyzer reads it from a JSON export; the
connections array may be absent (none). Width and height are never read
by the analyzer and are left out. -/
structure Screen where
  id : String
  name : String
  children : List NodeData
  connections : Option (List Connection)

/-- An edge case of the knowledge base; an absent description is modelled
as the empty string, which the backend treats the same way (JavaScript
falsiness). -/
structure EdgeCase where
  id : String
  name : String
  description : String
  severity : String
  suggestedComponents : List String
deriving DecidableEq

/-- A pattern of the knowledge base. -/
structure Pattern where
  detectionKeywords : List String
  requiredEdgeCases : List EdgeCase
deriving DecidableEq

/-- An issue as both analyzers build it. -/
structure Issue where
  id : String
  patternId : String
  edgeCaseId : String
  name : String
  description : String
  severity : String
  suggestedComponents : List String
  screenId : String
  screenName : String
deriving DecidableEq

structure ScreenAnalysis where
  screenId : String
  screenName : String
  detectedPatterns : List String
  issues : List Issue
  missingStates : List String
deriving DecidableEq

structure FlowIssues where
  deadEnds : List String
  orphanScreens : List String
deriving DecidableEq

structure AnalysisResult where
  timestamp : String
  totalScreens : Nat
  totalIssues : Nat
  criticalCount : Nat
  warningCount : Nat
  infoCount : Nat
  screens : List ScreenAnalysis
  flowIssues : FlowIssues
deriving DecidableEq

mutual

/-- getTextContent of analyze.js on one node, pre-order: push
name.toLowerCase(), then recurse into the children. -/
def nodeText : NodeData → List String
  | .node _ nm _ _ cs => toLowerCase nm :: nodeTexts cs

/-- getTextContent of analyze.js over a list of children. -/
def nodeTexts : List NodeData → List String
  | [] => []
  | n :: rest => nodeText n ++ nodeTexts rest

end

/-- getTextContent of analyze.js applied to a screen: the screen itself is
the root node, so its lowercased name comes first. -/
def getTextContent (s : Screen) : List String :=
  toLowerCase s.name :: nodeTexts s.children

/-- getTextContent(screen).join(' ') as analyze.js computes it before any
keyword matching. -/
def textContent (s : Screen) : String :=
  joinWith " " (getTextContent s)

/-- detectPatterns of analyze.js: keep, in knowledge-base order, every
pattern one of whose detectionKeywords occurs in the flattened text. -/
def detectPatterns (kb : List (String × Pattern)) (s : Screen) :
    List (String × Pattern) :=
  kb.filter fun pp =>
    pp.2.detectionKeywords.any fun kw => strIncludes (textContent s) (toLowerCase kw)

/-- The fixed common-indicator list of checkMissingEdgeCases. -/
def commonIndicators : List String :=
  ["error", "loading", "empty", "skeleton", "spinner", "alert", "toast"]

/-- The issue record checkMissingEdgeCases pushes for a missing edge case. -/
def mkIssue (patternId : String) (ec : EdgeCase) (s : Screen) : Issue :=
  { id := ec.id ++ "-" ++ s.id
    patternId := patternId
    edgeCaseId := ec.id
    name := ec.name
    description := if ec.description.isEmpty then "Missing " ++ ec.name else ec.description
    severity := ec.severity
    suggestedComponents := ec.suggestedComponents
    screenId := s.id
    screenName := s.name }

/-- The hasEdgeCase test of checkMissingEdgeCases: some entry of the
edgeCaseIndicators array (the id with dashes replaced by spaces, then the
suggested components lowercased) occurs, lowercased, in the text. -/
def hasEdgeCaseIndicator (text : String) (ec : EdgeCase) : Bool :=
  (dashesToSpaces ec.id :: ec.suggestedComponents.map toLowerCase).any
    fun ind => strIncludes text (toLowerCase ind)

/-- The hasCommonIndicator test of checkMissingEdgeCases. -/
def hasCommonIndicator (text : String) : Bool :=
  commonIndicators.any fun ci => strIncludes text ci

/-- checkMissingEdgeCases of analyze.js: for each detected pattern and each
required edge case, emit an issue exactly when neither the per-edge-case
indicators nor any common indicator occurs in the flattened text. -/
def checkMissingEdgeCases (s : Screen) (detected : List (String × Pattern)) :
    List Issue :=
  detected.flatMap fun pp =>
    pp.2.requiredEdgeCases.filterMap fun ec =>
      if !hasEdgeCaseIndicator (textContent s) ec && !hasCommonIndicator (textContent s)
      then some (mkIssue pp.1 ec s) else none

/-- True when the connections array is absent or empty, the dead-end test
of analyze.js. -/
def connectionsMissing (s : Screen) : Bool :=
  match s.connections with
  | none => true
  | some l => l.isEmpty

/-- The per-screen body of the screens.map call in analyzeScreens. -/
def screenAnalysis (kb : List (String × Pattern)) (s : Screen) : ScreenAnalysis :=
  let detected := detectPatterns kb s
  let issues := checkMissingEdgeCases s detected
  { screenId := s.id
    screenName := s.name
    detectedPatterns := detected.map Prod.fst
    issues := issues
    missingStates := issues.map Issue.name }

/-- analyzeScreens of analyze.js, with the knowledge base and the timestamp
(the one impure input) passed in explicitly. -/
def analyzeScreens (kb : List (String × Pattern)) (screens : List Screen)
    (timestamp : String) : AnalysisResult :=
  let screenAnalyses := screens.map (screenAnalysis kb)
  let allIssues := screenAnalyses.flatMap ScreenAnalysis.issues
  let deadEnds := (screens.filter fun s => connectionsMissing s).map Screen.name
  let targetedIds := screens.flatMap fun s =>
    (s.connections.getD []).map Connection.targetFrameId
  let orphanScreens := (screens.filter fun s => !targetedIds.contains s.id).map Screen.name
  { timestamp := timestamp
    totalScreens := screens.length
    totalIssues := allIssues.length
    criticalCount := (allIssues.filter fun i => i.severity == "critical").length
    warningCount := (allIssues.filter fun i => i.severity == "warning").length
    infoCount := (allIssues.filter fun i => i.severity == "info").length
    screens := screenAnalyses
    flowIssues := { deadEnds := deadEnds, orphanScreens := orphanScreens } }

/-- A screen as the plugin UI receives it from code.ts: same shape, but the
connections array is always present (the ScreenData type of the plugin). -/
structure ScreenData where
  id : String
  name : String
  children : List NodeData
  connections : List Connection

/-- The form-validation-error edge case of the inline UI pattern table (the
UI table carries no description field, so description is empty here). -/
def validationErrorEC : EdgeCase :=
  { id := "form-validation-error", name := "Validation Error State"
    description := "", severity := "critical"
    suggestedComponents := ["Alert", "Input (error)"] }

/-- The form-submission pattern of the inline UI table. -/
def formSubmissionPattern : Pattern :=
  { detectionKeywords := ["form", "submit", "save", "input", "field", "login", "signup"]
    requiredEdgeCases :=
      [ validationErrorEC
      , { id := "form-loading", name := "Submission Loading"
          description := "", severity := "critical"
          suggestedComponents := ["Button (loading)"] }
      , { id := "form-success", name := "Success Confirmation"
          description := "", severity := "warning"
          suggestedComponents := ["Toast", "Alert"] } ] }

/-- The data-list pattern of the inline UI table. -/
def dataListPattern : Pattern :=
  { detectionKeywords := ["list", "table", "grid", "feed", "items", "cards"]
    requiredEdgeCases :=
      [ { id := "list-empty", name := "Empty State"
          description := "", severity := "critical"
          suggestedComponents := ["EmptyState", "Card"] }
      , { id := "list-loading", name := "Loading State"
          description := "", severity := "critical"
          suggestedComponents := ["Skeleton"] }
      , { id := "list-error", name := "Error State"
          description := "", severity := "critical"
          suggestedComponents := ["Alert (error)"] } ] }

/-- The search-filter pattern of the inline UI table. -/
def searchFilterPattern : Pattern :=
  { detectionKeywords := ["search", "filter", "query", "find"]
    requiredEdgeCases :=
      [ { id := "search-no-results", name := "No Results Found"
          description := "", severity := "critical"
          suggestedComponents := ["EmptyState"] }
      , { id := "search-loading", name := "Search Loading"
          description := "", severity := "warning"
          suggestedComponents := ["Skeleton"] } ] }

/-- The destructive-action pattern of the inline UI table. -/
def destructiveActionPattern : Pattern :=
  { detectionKeywords := ["delete", "remove", "clear", "discard"]
    requiredEdgeCases :=
      [ { id := "destructive-confirmation", name := "Confirmation Dialog"
          description := "", severity := "critical"
          suggestedComponents := ["AlertDialog"] } ] }

/-- The inline pattern table of analyzeLocally in plugin/src/ui.tsx, reused
as a concrete knowledge-base instance for the backend analyzer (its field
keywords is detectionKeywords here). -/
def uiPatterns : List (String × Pattern) :=
  [ ("form-submission", formSubmissionPattern)
  , ("data-list", dataListPattern)
  , ("search-filter", searchFilterPattern)
  , ("destructive-action", destructiveActionPattern) ]

/-- One character of a JSON string literal, escaped as JSON.stringify
escapes it. -/
def jsonEscapeChar (c : Char) : String :=
  if c == '"' then "\\\""
  else if c == '\\' then "\\\\"
  else if c == '\n' then "\\n"
  else if c == '\r' then "\\r"
  else if c == '\t' then "\\t"
  else if c == '\x08' then "\\b"
  else if c == '\x0c' then "\\f"
  else if c.toNat < 32 then
    "\\u00" ++ String.mk [(Nat.digitChar (c.toNat / 16)), (Nat.digitChar (c.toNat % 16))]
  else String.mk [c]

/-- A JSON string literal. -/
def jsonString (s : String) : String :=
  "\"" ++ joinWith "" (s.data.map jsonEscapeChar) ++ "\""

mutual

/-- The object JSON.stringify writes for one exported node, fields in the
insertion order of extractNodeData: id, name, type, visible and, only when
the node has children, the children array. -/
def jsonNodeObject : NodeData → String
  | .node i n t v cs =>
      "\x7b\"id\":" ++ jsonString i
        ++ ",\"name\":" ++ jsonString n
        ++ ",\"type\":" ++ jsonString t
        ++ ",\"visible\":" ++ (if v then "true" else "false")
        ++ (if cs.isEmpty then ""
            else ",\"children\":[" ++ joinWith "," (jsonNodeObjects cs) ++ "]")
        ++ "\x7d"

/-- The serialized objects of a list of nodes. -/
def jsonNodeObjects : List NodeData → List String
  | [] => []
  | n :: rest => jsonNodeObject n :: jsonNodeObjects rest

end

/-- JSON.stringify(screen.children) as analyzeLocally calls it. -/
def jsonStringifyNodes (l : List NodeData) : String :=
  "[" ++ joinWith "," (jsonNodeObjects l) ++ "]"

/-- The allText variable of analyzeLocally: the lowercased screen name, a
space, then the lowercased JSON serialization of the children. -/
def uiAllText (s : ScreenData) : String :=
  toLowerCase s.name ++ " " ++ toLowerCase (jsonStringifyNodes s.children)

/-- The hasEdgeCase test of analyzeLocally: only the four indicators error,
loading, empty and skeleton are consulted, independent of the edge case. -/
def uiHasEdgeCase (allText : String) : Bool :=
  strIncludes allText "error" || strIncludes allText "loading"
    || strIncludes allText "empty" || strIncludes allText "skeleton"

/-- The issue record analyzeLocally pushes. -/
def uiMkIssue (patternId : String) (ec : EdgeCase) (s : ScreenData) : Issue :=
  { id := ec.id ++ "-" ++ s.id
    patternId := patternId
    edgeCaseId := ec.id
    name := ec.name
    description := "Missing " ++ toLowerCase ec.name ++ " for " ++ patternId
    severity := ec.severity
    suggestedComponents := ec.suggestedComponents
    screenId := s.id
    screenName := s.name }

/-- The per-screen body of analyzeLocally: detect patterns on allText, and
for each detected pattern flag every edge case unless one of the four
common indicators appears anywhere in allText. -/
def uiScreenAnalysis (s : ScreenData) : ScreenAnalysis :=
  let allText := uiAllText s
  let detectedPatterns :=
    (uiPatterns.filter fun pp =>
      pp.2.detectionKeywords.any fun kw => strIncludes allText kw).map Prod.fst
  let issues := uiPatterns.flatMap fun pp =>
    if pp.2.detectionKeywords.any fun kw => strIncludes allText kw then
      pp.2.requiredEdgeCases.filterMap fun ec =>
        if !uiHasEdgeCase allText then some (uiMkIssue pp.1 ec s) else none
    else []
  { screenId := s.id
    screenName := s.name
    detectedPatterns := detectedPatterns
    issues := issues
    missingStates := issues.map Issue.name }

/-- analyzeLocally of plugin/src/ui.tsx, timestamp passed in explicitly; its
flow analysis lists screens with an empty connections array as dead ends and
always returns an empty orphan list. -/
def analyzeLocally (screens : List ScreenData) (timestamp : String) : AnalysisResult :=
  let screenAnalyses := screens.map uiScreenAnalysis
  let allIssues := screenAnalyses.flatMap ScreenAnalysis.issues
  { timestamp := timestamp
    totalScreens := screens.length
    totalIssues := allIssues.length
    criticalCount := (allIssues.filter fun i => i.severity == "critical").length
    warningCount := (allIssues.filter fun i => i.severity == "warning").length
    infoCount := (allIssues.filter fun i => i.severity == "info").length
    screens := screenAnalyses
    flowIssues :=
      { deadEnds := (screens.filter fun s => s.connections.isEmpty).map ScreenData.name
        orphanScreens := [] } }

/-- A small screen with one child node, used to compare the two flattening
strategies on a concrete input. -/
def homeScreenUI : ScreenData :=
  { id := "s4", name := "Home"
    children := [.node "n1" "Button" "FRAME" true []]
    connections := [] }

example :
    uiAllText homeScreenUI
      = "home [\x7b\"id\":\"n1\",\"name\":\"button\",\"type\":\"frame\",\"visible\":true\x7d]" := by
  decide

mutual

/-- Following the words of the spec: the name field of one node, then the
names of its subtree in depth-first pre-order, with no lowercasing of its
own. -/
def preorderName : NodeData → List String
  | .node _ nm _ _ cs => nm :: preorderNames cs

/-- Depth-first pre-order names of a forest, following the spec. -/
def preorderNames : List NodeData → List String
  | [] => []
  | n :: rest => preorderName n ++ preorderNames rest

end

/-- Modelled from the words of the spec for comparison with the source: a
single lowercase string formed by depth-first pre-order concatenation of
every node name, joined by single spaces (the screen name is the root
node). -/
def specFlatten (name : String) (children : List NodeData) : String :=
  joinWith " " ((name :: preorderNames children).map toLowerCase)

/-- Modelled from the words of the claim: the flattened text contains the
edge-case id with dashes replaced by spaces, or one of its suggested
components lowercased, or a member of the fixed common-indicator set. As in
the source, the id comparison is case-insensitive (the flattened text is
all lowercase, so the id is lowercased before the substring test). -/
def claimIndicatorPresent (text : String) (ec : EdgeCase) : Bool :=
  strIncludes text (toLowerCase (dashesToSpaces ec.id))
    || ec.suggestedComponents.any (fun c => strIncludes text (toLowerCase c))
    || commonIndicators.any (fun ci => strIncludes text ci)

/-- The Login Form example screen, as the plugin UI sees it. -/
def loginScreenUI : ScreenData :=
  { id := "s1", name := "Login Form"
    children := [.node "n1" "Submit Button" "FRAME" true []]
    connections := [] }

/-- The Login Form example screen, as the backend analyzer reads it. -/
def loginScreenB : Screen :=
  { id := "s1", name := "Login Form"
    children := [.node "n1" "Submit Button" "FRAME" true []]
    connections := some [] }

example : textContent loginScreenB = "login form submit button" := by decide
example :
    (analyzeScreens uiPatterns [loginScreenB] "t").screens.map ScreenAnalysis.detectedPatterns
      = [["form-submission"]] := by decide
example :
    (analyzeScreens uiPatterns [loginScreenB] "t").screens.map ScreenAnalysis.missingStates
      = [["Validation Error State", "Submission Loading", "Success Confirmation"]] := by decide
example :
    (analyzeLocally [loginScreenUI] "t").screens.map ScreenAnalysis.detectedPatterns
      = [["form-submission"]] := by decide
example :
    (analyzeLocally [loginScreenUI] "t").screens.map ScreenAnalysis.missingStates
      = [["Validation Error State", "Submission Loading", "Success Confirmation"]] := by decide

/-- A screen whose text holds the word alert: the UI analyzer still emits
issues for it although alert is in the common-indicator set. -/
def alertScreen : ScreenData :=
  { id := "s2", name := "Login Alert", children := [], connections := [] }

example : uiAllText alertScreen = "login alert []" := by decide
example : (analyzeLocally [alertScreen] "t").totalIssues = 3 := by decide

/-- A screen whose text holds the word toast, exercising the same gap for
the suppression claim. -/
def toastScreen : ScreenData :=
  { id := "s3", name := "Toast List", children := [], connections := [] }

example : (analyzeLocally [toastScreen] "t").totalIssues = 3 := by decide

/-- A screen whose only inbound edge is its own self-loop: no other screen
targets it, yet the backend does not list it as an orphan. -/
def selfLoopScreen : Screen :=
  { id := "1", name := "Self"
    children := []
    connections := some [{ triggerNodeId := "t1", triggerNodeName := "go"
                           targetFrameId := "1", targetFrameName := "Self" }] }

example :
    (analyzeScreens uiPatterns [selfLoopScreen] "t").flowIssues.orphanScreens = [] := by decide

/-- Screen A of the dead-end / orphan example of the spec. -/
def screenA : Screen :=
  { id := "1", name := "A", children := [], connections := some [] }

/-- Screen B of the dead-end / orphan example of the spec. -/
def screenB : Screen :=
  { id := "2", name := "B"
    children := []
    connections := some [{ triggerNodeId := "t", triggerNodeName := "n"
                           targetFrameId := "1", targetFrameName := "A" }] }

example :
    (analyzeScreens uiPatterns [screenA, screenB] "t").flowIssues
      = { deadEnds := ["A"], orphanScreens := ["B"] } := by decide

/-- A start-and-isolated screen: no connections and no inbound edge, so it
appears in both flow lists. -/
def isolatedScreen : Screen :=
  { id := "9", name := "C", children := [], connections := some [] }

example :
    (analyzeScreens uiPatterns [isolatedScreen] "t").flowIssues
      = { deadEnds := ["C"], orphanScreens := ["C"] } := by decide

/-- Screen A of the dead-end / orphan example, as the plugin UI sees it. -/
def uiScreenA : ScreenData :=
  { id := "1", name := "A", children := [], connections := [] }

/-- Screen B of the dead-end / orphan example, as the plugin UI sees it:
it targets A, and nothing targets it. -/
def uiScreenB : ScreenData :=
  { id := "2", name := "B"
    children := []
    connections := [{ triggerNodeId := "t", triggerNodeName := "n"
                      targetFrameId := "1", targetFrameName := "A" }] }

example :
    (analyzeLocally [uiScreenA, uiScreenB] "t").flowIssues
      = { deadEnds := ["A"], orphanScreens := [] } := by decide

theorem char_ofNat_toNat_small (n : Nat) (h1 : 97 ≤ n) (h2 : n ≤ 122) :
    (Char.ofNat n).toNat = n := by
  have hv : n.isValidChar := by left; omega
  simp [Char.ofNat, hv, Char.ofNatAux, Char.toNat, UInt32.toNat, BitVec.ofNatLt]

theorem char_toLower_idem (c : Char) : c.toLower.toLower = c.toLower := by
  unfold Char.toLower
  by_cases h : c.toNat ≥ 65 ∧ c.toNat ≤ 90
  · simp only [h, and_self, if_pos]
    rw [if_neg]
    rw [char_ofNat_toNat_small (c.toNat + 32) (by omega) (by omega)]
    omega
  · rw [if_neg h, if_neg h]

theorem toLowerCase_idem (s : String) : toLowerCase (toLowerCase s) = toLowerCase s := by
  cases s with
  | mk data =>
    simp only [toLowerCase, List.map_map, Function.comp_def]
    congr 1
    exact List.map_congr_left fun c _ => char_toLower_idem c

/-- The indicator test of the claim agrees with the two indicator tests of
the backend source combined. -/
theorem claimIndicator_eq (text : String) (ec : EdgeCase) :
    claimIndicatorPresent text ec
      = (hasEdgeCaseIndicator text ec || hasCommonIndicator text) := by
  simp [claimIndicatorPresent, hasEdgeCaseIndicator, hasCommonIndicator, List.any_cons,
        List.any_map, Function.comp_def, toLowerCase_idem, Bool.or_assoc]

mutual

theorem nodeText_eq : ∀ n : NodeData, nodeText n = (preorderName n).map toLowerCase
  | .node i nm t v cs => by
      rw [nodeText, preorderName, List.map_cons, nodeTexts_eq cs]

theorem nodeTexts_eq : ∀ l : List NodeData, nodeTexts l = (preorderNames l).map toLowerCase
  | [] => by rw [nodeTexts, preorderNames]; rfl
  | n :: rest => by
      rw [nodeTexts, preorderNames, List.map_append, nodeText_eq n, nodeTexts_eq rest]

end

/-- Claim C6, amended to the backend analyzer: there the flattened text
used for keyword matching equals the single lowercase string formed by
depth-first pre-order concatenation of every node name, joined by single
spaces, with the screen as root node. -/
theorem c6_backend_flatten (s : Screen) :
    textContent s = specFlatten s.name s.children := by
  rw [textContent, getTextContent, specFlatten, List.map_cons, nodeTexts_eq]

/-- Counterexample to claim C6 as stated: the flattened text the UI demo
analyzer matches against is not the space-joined pre-order name
concatenation; it even contains the word visible, which appears in no node
name but comes from the JSON serialization of the children. -/
theorem c6_counterexample :
    uiAllText homeScreenUI ≠ specFlatten homeScreenUI.name homeScreenUI.children
    ∧ strIncludes (uiAllText homeScreenUI) "visible" = true
    ∧ strIncludes (specFlatten homeScreenUI.name homeScreenUI.children) "visible" = false := by
  refine ⟨by decide, by decide, by decide⟩

/-- Claim C7: both analyzers are deterministic; on the same input, two runs
with different timestamps agree on every field except the timestamp. -/
theorem c7_timestamp_independent (kb : List (String × Pattern)) (bscreens : List Screen)
    (uscreens : List ScreenData) (t1 t2 : String) :
    ((analyzeScreens kb bscreens t1).totalScreens = (analyzeScreens kb bscreens t2).totalScreens)
    ∧ ((analyzeScreens kb bscreens t1).totalIssues = (analyzeScreens kb bscreens t2).totalIssues)
    ∧ ((analyzeScreens kb bscreens t1).criticalCount = (analyzeScreens kb bscreens t2).criticalCount)
    ∧ ((analyzeScreens kb bscreens t1).warningCount = (analyzeScreens kb bscreens t2).warningCount)
    ∧ ((analyzeScreens kb bscreens t1).infoCount = (analyzeScreens kb bscreens t2).infoCount)
    ∧ ((analyzeScreens kb bscreens t1).screens = (analyzeScreens kb bscreens t2).screens)
    ∧ ((analyzeScreens kb bscreens t1).flowIssues = (analyzeScreens kb bscreens t2).flowIssues)
    ∧ ((analyzeLocally uscreens t1).totalScreens = (analyzeLocally uscreens t2).totalScreens)
    ∧ ((analyzeLocally uscreens t1).totalIssues = (analyzeLocally uscreens t2).totalIssues)
    ∧ ((analyzeLocally uscreens t1).criticalCount = (analyzeLocally uscreens t2).criticalCount)
    ∧ ((analyzeLocally uscreens t1).warningCount = (analyzeLocally uscreens t2).warningCount)
    ∧ ((analyzeLocally uscreens t1).infoCount = (analyzeLocally uscreens t2).infoCount)
    ∧ ((analyzeLocally uscreens t1).screens = (analyzeLocally uscreens t2).screens)
    ∧ ((analyzeLocally uscreens t1).flowIssues = (analyzeLocally uscreens t2).flowIssues) :=
  ⟨rfl, rfl, rfl, rfl, rfl, rfl, rfl, rfl, rfl, rfl, rfl, rfl, rfl, rfl⟩

/-- Claim C8: on the Login Form screen with a Submit Button child and no
indicator word, both analyzers detect form-submission and raise exactly the
issues Validation Error State, Submission Loading and Success
Confirmation. -/
theorem c8_login_form_example :
    ((analyzeLocally [loginScreenUI] "t1").screens.map ScreenAnalysis.detectedPatterns
        = [["form-submission"]])
    ∧ ((analyzeLocally [loginScreenUI] "t1").screens.map ScreenAnalysis.missingStates
        = [["Validation Error State", "Submission Loading", "Success Confirmation"]])
    ∧ ((analyzeLocally [loginScreenUI] "t1").totalIssues = 3)
    ∧ ((analyzeScreens uiPatterns [loginScreenB] "t1").screens.map ScreenAnalysis.detectedPatterns
        = [["form-submission"]])
    ∧ ((analyzeScreens uiPatterns [loginScreenB] "t1").screens.map ScreenAnalysis.missingStates
        = [["Validation Error State", "Submission Loading", "Success Confirmation"]])
    ∧ ((analyzeScreens uiPatterns [loginScreenB] "t1").totalIssues = 3) := by
  refine ⟨by decide, by decide, by decide, by decide, by decide, by decide⟩

/-- Claim C9: the empty screen list is not an error; both analyzers return
a result with zero counts, no per-screen analyses and empty flow lists. -/
theorem c9_empty_screen_list (kb : List (String × Pattern)) (ts : String) :
    ((analyzeScreens kb [] ts).totalScreens = 0)
    ∧ ((analyzeScreens kb [] ts).totalIssues = 0)
    ∧ ((analyzeScreens kb [] ts).criticalCount = 0)
    ∧ ((analyzeScreens kb [] ts).warningCount = 0)
    ∧ ((analyzeScreens kb [] ts).infoCount = 0)
    ∧ ((analyzeScreens kb [] ts).screens = [])
    ∧ ((analyzeScreens kb [] ts).flowIssues.deadEnds = [])
    ∧ ((analyzeScreens kb [] ts).flowIssues.orphanScreens = [])
    ∧ ((analyzeLocally [] ts).totalScreens = 0)
    ∧ ((analyzeLocally [] ts).totalIssues = 0)
    ∧ ((analyzeLocally [] ts).criticalCount = 0)
    ∧ ((analyzeLocally [] ts).warningCount = 0)
    ∧ ((analyzeLocally [] ts).infoCount = 0)
    ∧ ((analyzeLocally [] ts).screens = [])
    ∧ ((analyzeLocally [] ts).flowIssues.deadEnds = [])
    ∧ ((analyzeLocally [] ts).flowIssues.orphanScreens = []) :=
  ⟨rfl, rfl, rfl, rfl, rfl, rfl, rfl, rfl, rfl, rfl, rfl, rfl, rfl, rfl, rfl, rfl⟩

/-- Claim C10: in every ScreenAnalysis either analyzer produces,
missingStates is exactly the in-order list of issue names, so they have
the same length and agree index by index. -/
theorem c10_missing_states (kb : List (String × Pattern)) (bscreens : List Screen)
    (uscreens : List ScreenData) (t u : String) :
    (∀ sa ∈ (analyzeScreens kb bscreens t).screens,
        sa.missingStates = sa.issues.map Issue.name
        ∧ sa.missingStates.length = sa.issues.length)
    ∧ (∀ sa ∈ (analyzeLocally uscreens u).screens,
        sa.missingStates = sa.issues.map Issue.name
        ∧ sa.missingStates.length = sa.issues.length) := by
  constructor
  · intro sa hsa
    have hs : sa ∈ bscreens.map (screenAnalysis kb) := hsa
    simp only [List.mem_map] at hs
    obtain ⟨s, _, rfl⟩ := hs
    exact ⟨rfl, by simp [screenAnalysis]⟩
  · intro sa hsa
    have hs : sa ∈ uscreens.map uiScreenAnalysis := hsa
    simp only [List.mem_map] at hs
    obtain ⟨s, _, rfl⟩ := hs
    exact ⟨rfl, by simp [uiScreenAnalysis]⟩

/-- A backend screen whose name holds the word error, matching the
data-list pattern. -/
def errorListScreen : Screen :=
  { id := "s5", name := "Error List", children := [], connections := some [] }

/-- Claim C4, amended to the backend analyzer: there suppression is indeed
all-or-nothing per screen — when any member of the common-indicator set
occurs in the flattened text, checkMissingEdgeCases emits no issue at all,
for any detected pattern and any required edge case. -/
theorem c4_backend_suppression (kb : List (String × Pattern)) (s : Screen)
    (h : hasCommonIndicator (textContent s) = true) :
    checkMissingEdgeCases s (detectPatterns kb s) = [] := by
  rw [checkMissingEdgeCases, List.flatMap_eq_nil_iff]
  intro pp _
  rw [List.filterMap_eq_nil_iff]
  intro ec _
  rw [h]
  simp

/-- Witness for claim C4: a screen named Error List matches data-list, the
word error is a common indicator, and no issue at all is emitted. -/
theorem c4_witness :
    checkMissingEdgeCases errorListScreen (detectPatterns uiPatterns errorListScreen) = [] :=
  c4_backend_suppression uiPatterns errorListScreen (by decide)

/-- Counterexample to claim C4 as stated: in the UI demo analyzer the word
toast is in the common-indicator set and occurs in the flattened text of a
screen that matches data-list, yet three issues are still raised, because
that variant only consults error, loading, empty and skeleton. -/
theorem c4_counterexample :
    ("toast" ∈ commonIndicators)
    ∧ (strIncludes (uiAllText toastScreen) "toast" = true)
    ∧ ((analyzeLocally [toastScreen] "t").screens.map ScreenAnalysis.detectedPatterns
        = [["data-list"]])
    ∧ ((analyzeLocally [toastScreen] "t").totalIssues = 3) := by
  refine ⟨by decide, by decide, by decide, by decide⟩

/-- The detected-pattern list of the UI analyzer, spelled out. -/
theorem uiScreenAnalysis_detectedPatterns (u : ScreenData) :
    (uiScreenAnalysis u).detectedPatterns
      = (uiPatterns.filter fun pp =>
          pp.2.detectionKeywords.any fun kw => strIncludes (uiAllText u) kw).map Prod.fst := rfl

/-- The issue list of the UI analyzer, spelled out. -/
theorem uiScreenAnalysis_issues (u : ScreenData) :
    (uiScreenAnalysis u).issues
      = (uiPatterns.flatMap fun pp =>
          if pp.2.detectionKeywords.any fun kw => strIncludes (uiAllText u) kw then
            pp.2.requiredEdgeCases.filterMap fun ec =>
              if !uiHasEdgeCase (uiAllText u) then some (uiMkIssue pp.1 ec u) else none
          else []) := rfl

/-- Claim C2: a pattern id is detected for a screen exactly when some entry
of its detectionKeywords is a substring of the flattened lowercase text (in
each analyzer, of the text that analyzer flattens); every emitted issue
carries a patternId of a detected pattern; and a screen with no detected
pattern gets no issue. -/
theorem c2_pattern_detection (kb : List (String × Pattern)) (s : Screen)
    (u : ScreenData) (pid : String) :
    (pid ∈ (detectPatterns kb s).map Prod.fst
      ↔ ∃ p : Pattern, (pid, p) ∈ kb
          ∧ ∃ kw ∈ p.detectionKeywords, strIncludes (textContent s) (toLowerCase kw) = true)
    ∧ (∀ i ∈ checkMissingEdgeCases s (detectPatterns kb s),
        i.patternId ∈ (detectPatterns kb s).map Prod.fst)
    ∧ (detectPatterns kb s = [] → checkMissingEdgeCases s (detectPatterns kb s) = [])
    ∧ (pid ∈ (uiScreenAnalysis u).detectedPatterns
      ↔ ∃ p : Pattern, (pid, p) ∈ uiPatterns
          ∧ ∃ kw ∈ p.detectionKeywords, strIncludes (uiAllText u) kw = true)
    ∧ (∀ i ∈ (uiScreenAnalysis u).issues,
        i.patternId ∈ (uiScreenAnalysis u).detectedPatterns)
    ∧ ((uiScreenAnalysis u).detectedPatterns = [] → (uiScreenAnalysis u).issues = []) := by
  refine ⟨?_, ?_, ?_, ?_, ?_, ?_⟩
  · constructor
    · intro h
      simp only [List.mem_map] at h
      obtain ⟨pp, hpp, rfl⟩ := h
      rw [detectPatterns, List.mem_filter] at hpp
      obtain ⟨hmem, hany⟩ := hpp
      rw [List.any_eq_true] at hany
      obtain ⟨kw, hkw, hinc⟩ := hany
      exact ⟨pp.2, by simpa using hmem, kw, hkw, hinc⟩
    · rintro ⟨p, hp, kw, hkw, hinc⟩
      simp only [List.mem_map]
      refine ⟨(pid, p), ?_, rfl⟩
      rw [detectPatterns, List.mem_filter]
      exact ⟨hp, List.any_eq_true.mpr ⟨kw, hkw, hinc⟩⟩
  · intro i hi
    rw [checkMissingEdgeCases] at hi
    simp only [List.mem_flatMap, List.mem_filterMap] at hi
    obtain ⟨pp, hpp, ec, hec, heq⟩ := hi
    by_cases hg : (!hasEdgeCaseIndicator (textContent s) ec
        && !hasCommonIndicator (textContent s)) = true
    · rw [if_pos hg] at heq
      cases heq
      simp only [List.mem_map]
      exact ⟨pp, hpp, rfl⟩
    · rw [if_neg hg] at heq
      cases heq
  · intro h
    rw [h, checkMissingEdgeCases]
    rfl
  · rw [uiScreenAnalysis_detectedPatterns]
    constructor
    · intro h
      simp only [List.mem_map] at h
      obtain ⟨pp, hpp, rfl⟩ := h
      rw [List.mem_filter] at hpp
      obtain ⟨hmem, hany⟩ := hpp
      rw [List.any_eq_true] at hany
      obtain ⟨kw, hkw, hinc⟩ := hany
      exact ⟨pp.2, by simpa using hmem, kw, hkw, hinc⟩
    · rintro ⟨p, hp, kw, hkw, hinc⟩
      simp only [List.mem_map]
      refine ⟨(pid, p), ?_, rfl⟩
      rw [List.mem_filter]
      exact ⟨hp, List.any_eq_true.mpr ⟨kw, hkw, hinc⟩⟩
  · intro i hi
    rw [uiScreenAnalysis_issues] at hi
    simp only [List.mem_flatMap] at hi
    obtain ⟨pp, hpp, hin⟩ := hi
    by_cases hdet : (pp.2.detectionKeywords.any fun kw => strIncludes (uiAllText u) kw) = true
    · rw [if_pos hdet] at hin
      rw [List.mem_filterMap] at hin
      obtain ⟨ec, hec, heq⟩ := hin
      by_cases hg : (!uiHasEdgeCase (uiAllText u)) = true
      · rw [if_pos hg] at heq
        injection heq with heq
        rw [uiScreenAnalysis_detectedPatterns]
        simp only [List.mem_map]
        refine ⟨pp, List.mem_filter.mpr ⟨hpp, hdet⟩, ?_⟩
        rw [← heq]
        rfl
      · rw [if_neg hg] at heq
        cases heq
    · rw [if_neg hdet] at hin
      simp at hin
  · intro h
    rw [uiScreenAnalysis_detectedPatterns] at h
    have hfil := List.map_eq_nil_iff.mp h
    have hnone := List.filter_eq_nil_iff.mp hfil
    rw [uiScreenAnalysis_issues, List.flatMap_eq_nil_iff]
    intro pp hpp
    rw [if_neg]
    intro hdet
    exact hnone pp hpp hdet

/-- The flow lists of analyzeScreens, spelled out. -/
theorem analyzeScreens_flowIssues (kb : List (String × Pattern)) (screens : List Screen)
    (ts : String) :
    (analyzeScreens kb screens ts).flowIssues
      = { deadEnds := (screens.filter fun s => connectionsMissing s).map Screen.name
          orphanScreens := (screens.filter fun s =>
              !(screens.flatMap fun s2 =>
                (s2.connections.getD []).map Connection.targetFrameId).contains s.id).map
            Screen.name } := rfl

/-- Claim C5, amended: in the backend analyzer deadEnds lists exactly the
names of screens with an empty or absent connections array, and
orphanScreens lists exactly the names of screens whose id appears as a
targetFrameId in no connection of the batch, the screen itself included, so
a self-loop prevents orphan status; a start-and-isolated screen appears in
both lists; and the two-screen A/B example behaves as the claim states
there. The UI demo analyzer lists as dead ends exactly the screens with an
empty connections array but always returns an empty orphanScreens list, so
on the same A/B batch it reports A as a dead end and no orphan at all. -/
theorem c5_flow_analysis (kb : List (String × Pattern)) (screens : List Screen)
    (uscreens : List ScreenData) (ts : String) (nm : String) :
    (nm ∈ (analyzeScreens kb screens ts).flowIssues.deadEnds
      ↔ ∃ s ∈ screens, s.name = nm ∧ connectionsMissing s = true)
    ∧ (nm ∈ (analyzeScreens kb screens ts).flowIssues.orphanScreens
      ↔ ∃ s ∈ screens, s.name = nm
          ∧ ∀ s2 ∈ screens, ∀ c ∈ s2.connections.getD [], c.targetFrameId ≠ s.id)
    ∧ ((analyzeScreens kb [screenA, screenB] ts).flowIssues
        = { deadEnds := ["A"], orphanScreens := ["B"] })
    ∧ ((analyzeScreens kb [isolatedScreen] ts).flowIssues
        = { deadEnds := ["C"], orphanScreens := ["C"] })
    ∧ (nm ∈ (analyzeLocally uscreens ts).flowIssues.deadEnds
      ↔ ∃ s ∈ uscreens, s.name = nm ∧ s.connections.isEmpty = true)
    ∧ ((analyzeLocally uscreens ts).flowIssues.orphanScreens = [])
    ∧ ((analyzeLocally [uiScreenA, uiScreenB] ts).flowIssues
        = { deadEnds := ["A"], orphanScreens := [] }) := by
  refine ⟨?_, ?_, rfl, rfl, ?_, rfl, rfl⟩
  · rw [analyzeScreens_flowIssues]
    simp only [List.mem_map, List.mem_filter]
    constructor
    · rintro ⟨s, ⟨hsmem, hcond⟩, rfl⟩
      exact ⟨s, hsmem, rfl, hcond⟩
    · rintro ⟨s, hsmem, rfl, hcond⟩
      exact ⟨s, ⟨hsmem, hcond⟩, rfl⟩
  · rw [analyzeScreens_flowIssues]
    simp only [List.mem_map, List.mem_filter]
    constructor
    · rintro ⟨s, ⟨hsmem, hcond⟩, rfl⟩
      refine ⟨s, hsmem, rfl, ?_⟩
      intro s2 hs2 c hc heq
      rw [Bool.not_eq_true', ← Bool.not_eq_true] at hcond
      apply hcond
      rw [List.elem_iff, List.mem_flatMap]
      exact ⟨s2, hs2, List.mem_map.mpr ⟨c, hc, heq⟩⟩
    · rintro ⟨s, hsmem, rfl, hall⟩
      refine ⟨s, ⟨hsmem, ?_⟩, rfl⟩
      rw [Bool.not_eq_true', ← Bool.not_eq_true]
      intro hmem
      rw [List.elem_iff, List.mem_flatMap] at hmem
      obtain ⟨s2, hs2, hmap⟩ := hmem
      obtain ⟨c, hc, hceq⟩ := List.mem_map.mp hmap
      exact hall s2 hs2 c hc hceq
  · have hd : (analyzeLocally uscreens ts).flowIssues.deadEnds
        = (uscreens.filter fun s => s.connections.isEmpty).map ScreenData.name := rfl
    rw [hd]
    simp only [List.mem_map, List.mem_filter]
    constructor
    · rintro ⟨s, ⟨hsmem, hcond⟩, rfl⟩
      exact ⟨s, hsmem, rfl, hcond⟩
    · rintro ⟨s, hsmem, rfl, hcond⟩
      exact ⟨s, ⟨hsmem, hcond⟩, rfl⟩

/-- Counterexample to claim C5 as stated, on both analyzers it cites. In
the backend, a batch holding only a screen that targets itself: no other
screen mentions its id, so the claim lists it as an orphan, yet the code
consults every connection of the batch, the self loop included, and lists
no orphan. In the UI demo analyzer, the A/B batch of the claim itself: no
connection anywhere targets the id of B, so the claim demands B among the
orphans, yet the code returns an empty orphan list. -/
theorem c5_counterexample :
    (∀ s2 ∈ [selfLoopScreen], s2.id = selfLoopScreen.id)
    ∧ selfLoopScreen.name = "Self"
    ∧ "Self" ∉ (analyzeScreens uiPatterns [selfLoopScreen] "t").flowIssues.orphanScreens
    ∧ uiScreenB.name = "B"
    ∧ (∀ s2 ∈ [uiScreenA, uiScreenB], ∀ c ∈ s2.connections, c.targetFrameId ≠ uiScreenB.id)
    ∧ "B" ∉ (analyzeLocally [uiScreenA, uiScreenB] "t").flowIssues.orphanScreens
    ∧ (analyzeLocally [uiScreenA, uiScreenB] "t").flowIssues.orphanScreens = [] := by
  refine ⟨by decide, rfl, by decide, rfl, by decide, by decide, rfl⟩

/-- Every issue the backend emits takes its severity from some edge case of
the knowledge base. -/
theorem issue_from_kb (kb : List (String × Pattern)) (s : Screen) :
    ∀ i ∈ checkMissingEdgeCases s (detectPatterns kb s),
      ∃ pp ∈ kb, ∃ ec ∈ (Prod.snd pp).requiredEdgeCases, i.severity = ec.severity := by
  intro i hi
  rw [checkMissingEdgeCases] at hi
  simp only [List.mem_flatMap, List.mem_filterMap] at hi
  obtain ⟨pp, hpp, ec, hec, heq⟩ := hi
  have hppkb : pp ∈ kb := List.mem_of_mem_filter hpp
  by_cases hg : (!hasEdgeCaseIndicator (textContent s) ec
      && !hasCommonIndicator (textContent s)) = true
  · rw [if_pos hg] at heq
    cases heq
    exact ⟨pp, hppkb, ec, hec, rfl⟩
  · rw [if_neg hg] at heq
    cases heq

/-- Three filters on the three severities partition a list whose members
all carry one of the three. -/
theorem severity_filter_partition (l : List Issue)
    (h : ∀ i ∈ l, i.severity = "critical" ∨ i.severity = "warning" ∨ i.severity = "info") :
    (l.filter fun i => i.severity == "critical").length
      + (l.filter fun i => i.severity == "warning").length
      + (l.filter fun i => i.severity == "info").length = l.length := by
  induction l with
  | nil => rfl
  | cons a t ih =>
    have ht := fun i hi => h i (List.mem_cons_of_mem a hi)
    have ha := h a (List.mem_cons_self a t)
    have hsum := ih ht
    rcases ha with h1 | h1 | h1 <;>
      simp [List.filter_cons, h1] <;>
      omega

/-- Every issue the UI analyzer emits takes its severity from some edge
case of its inline pattern table. -/
theorem ui_issue_from_kb (u : ScreenData) :
    ∀ i ∈ (uiScreenAnalysis u).issues,
      ∃ pp ∈ uiPatterns, ∃ ec ∈ (Prod.snd pp).requiredEdgeCases, i.severity = ec.severity := by
  intro i hi
  rw [uiScreenAnalysis_issues] at hi
  simp only [List.mem_flatMap] at hi
  obtain ⟨pp, hpp, hin⟩ := hi
  by_cases hdet : (pp.2.detectionKeywords.any fun kw => strIncludes (uiAllText u) kw) = true
  · rw [if_pos hdet] at hin
    rw [List.mem_filterMap] at hin
    obtain ⟨ec, hec, heq⟩ := hin
    by_cases hg : (!uiHasEdgeCase (uiAllText u)) = true
    · rw [if_pos hg] at heq
      injection heq with heq
      exact ⟨pp, hpp, ec, hec, by rw [← heq]; rfl⟩
    · rw [if_neg hg] at heq
      cases heq
  · rw [if_neg hdet] at hin
    simp at hin

/-- Claim C3: totalIssues equals the sum of the per-screen issue counts,
and, when every knowledge-base severity is critical, warning or info (the
inline UI table satisfies this by construction), every issue severity is
one of the three and the three counts partition totalIssues exactly, in
both analyzers. -/
theorem c3_severity_partition (kb : List (String × Pattern)) (screens : List Screen)
    (uscreens : List ScreenData) (ts : String)
    (hkb : ∀ pp ∈ kb, ∀ ec ∈ (Prod.snd pp).requiredEdgeCases,
        ec.severity = "critical" ∨ ec.severity = "warning" ∨ ec.severity = "info") :
    ((analyzeScreens kb screens ts).totalIssues
        = ((analyzeScreens kb screens ts).screens.map fun sa => sa.issues.length).sum)
    ∧ (∀ sa ∈ (analyzeScreens kb screens ts).screens, ∀ i ∈ sa.issues,
        i.severity = "critical" ∨ i.severity = "warning" ∨ i.severity = "info")
    ∧ ((analyzeScreens kb screens ts).criticalCount
        + (analyzeScreens kb screens ts).warningCount
        + (analyzeScreens kb screens ts).infoCount
        = (analyzeScreens kb screens ts).totalIssues)
    ∧ ((analyzeLocally uscreens ts).totalIssues
        = ((analyzeLocally uscreens ts).screens.map fun sa => sa.issues.length).sum)
    ∧ (∀ sa ∈ (analyzeLocally uscreens ts).screens, ∀ i ∈ sa.issues,
        i.severity = "critical" ∨ i.severity = "warning" ∨ i.severity = "info")
    ∧ ((analyzeLocally uscreens ts).criticalCount
        + (analyzeLocally uscreens ts).warningCount
        + (analyzeLocally uscreens ts).infoCount
        = (analyzeLocally uscreens ts).totalIssues) := by
  have hIssueSev : ∀ sa ∈ (analyzeScreens kb screens ts).screens, ∀ i ∈ sa.issues,
      i.severity = "critical" ∨ i.severity = "warning" ∨ i.severity = "info" := by
    intro sa hsa i hi
    have hs : sa ∈ screens.map (screenAnalysis kb) := hsa
    simp only [List.mem_map] at hs
    obtain ⟨s, _, rfl⟩ := hs
    have hi2 : i ∈ checkMissingEdgeCases s (detectPatterns kb s) := hi
    obtain ⟨pp, hpp, ec, hec, hsev⟩ := issue_from_kb kb s i hi2
    rw [hsev]
    exact hkb pp hpp ec hec
  have hIssueSevUi : ∀ sa ∈ (analyzeLocally uscreens ts).screens, ∀ i ∈ sa.issues,
      i.severity = "critical" ∨ i.severity = "warning" ∨ i.severity = "info" := by
    intro sa hsa i hi
    have hs : sa ∈ uscreens.map uiScreenAnalysis := hsa
    simp only [List.mem_map] at hs
    obtain ⟨x, _, rfl⟩ := hs
    obtain ⟨pp, hpp, ec, hec, hsev⟩ := ui_issue_from_kb x i hi
    rw [hsev]
    clear hsev hi
    revert hec
    revert ec
    revert hpp
    revert pp
    decide
  refine ⟨?_, hIssueSev, ?_, ?_, hIssueSevUi, ?_⟩
  · have h1 : (analyzeScreens kb screens ts).totalIssues
        = ((screens.map (screenAnalysis kb)).flatMap ScreenAnalysis.issues).length := rfl
    rw [h1, List.length_flatMap]
    rfl
  · have hall : ∀ i ∈ (screens.map (screenAnalysis kb)).flatMap ScreenAnalysis.issues,
        i.severity = "critical" ∨ i.severity = "warning" ∨ i.severity = "info" := by
      intro i hi
      rw [List.mem_flatMap] at hi
      obtain ⟨sa, hsa, hisa⟩ := hi
      exact hIssueSev sa hsa i hisa
    exact severity_filter_partition
      ((screens.map (screenAnalysis kb)).flatMap ScreenAnalysis.issues) hall
  · have h1 : (analyzeLocally uscreens ts).totalIssues
        = ((uscreens.map uiScreenAnalysis).flatMap ScreenAnalysis.issues).length := rfl
    rw [h1, List.length_flatMap]
    rfl
  · have hall : ∀ i ∈ (uscreens.map uiScreenAnalysis).flatMap ScreenAnalysis.issues,
        i.severity = "critical" ∨ i.severity = "warning" ∨ i.severity = "info" := by
      intro i hi
      rw [List.mem_flatMap] at hi
      obtain ⟨sa, hsa, hisa⟩ := hi
      exact hIssueSevUi sa hsa i hisa
    exact severity_filter_partition
      ((uscreens.map uiScreenAnalysis).flatMap ScreenAnalysis.issues) hall

/-- Witness for claim C3: on the Login Form screen with the UI knowledge
base, the three severity counts add up to totalIssues. -/
theorem c3_witness :
    (analyzeScreens uiPatterns [loginScreenB] "t").criticalCount
      + (analyzeScreens uiPatterns [loginScreenB] "t").warningCount
      + (analyzeScreens uiPatterns [loginScreenB] "t").infoCount
      = (analyzeScreens uiPatterns [loginScreenB] "t").totalIssues :=
  (c3_severity_partition uiPatterns [loginScreenB] [loginScreenUI] "t" (by decide)).2.2.1

/-- Claim C1, amended to the backend analyzer: for a pattern detected on a
screen and one of its required edge cases, the issue for that pair is
emitted if and only if the flattened text holds none of the indicators of
the claim, and the issue carries the declared severity and the suggested
components verbatim. -/
theorem c1_edge_case_emission (kb : List (String × Pattern)) (s : Screen)
    (pid : String) (p : Pattern) (ec : EdgeCase)
    (hd : (pid, p) ∈ detectPatterns kb s)
    (he : ec ∈ p.requiredEdgeCases) :
    (mkIssue pid ec s ∈ checkMissingEdgeCases s (detectPatterns kb s)
      ↔ claimIndicatorPresent (textContent s) ec = false)
    ∧ (mkIssue pid ec s).severity = ec.severity
    ∧ (mkIssue pid ec s).suggestedComponents = ec.suggestedComponents := by
  refine ⟨?_, rfl, rfl⟩
  rw [checkMissingEdgeCases]
  simp only [List.mem_flatMap, List.mem_filterMap]
  constructor
  · rintro ⟨pp, hpp, ec2, hec2, heq⟩
    by_cases hg : (!hasEdgeCaseIndicator (textContent s) ec2
        && !hasCommonIndicator (textContent s)) = true
    · rw [if_pos hg] at heq
      injection heq with heq
      have hid : ec2.id = ec.id := congrArg Issue.edgeCaseId heq
      have hcomps : ec2.suggestedComponents = ec.suggestedComponents :=
        congrArg Issue.suggestedComponents heq
      rw [Bool.and_eq_true, Bool.not_eq_true', Bool.not_eq_true'] at hg
      obtain ⟨hge, hgc⟩ := hg
      rw [claimIndicator_eq]
      have hsame : hasEdgeCaseIndicator (textContent s) ec
          = hasEdgeCaseIndicator (textContent s) ec2 := by
        simp only [hasEdgeCaseIndicator, hid, hcomps]
      rw [hsame, hge, hgc]
      rfl
    · rw [if_neg hg] at heq
      cases heq
  · intro h
    refine ⟨(pid, p), hd, ec, he, ?_⟩
    rw [claimIndicator_eq, Bool.or_eq_false_iff] at h
    obtain ⟨h1, h2⟩ := h
    rw [h1, h2]
    rfl

/-- Witness for claim C1: on the Login Form screen no indicator of the
validation-error edge case occurs, and the corresponding issue is a member
of the emitted list. -/
theorem c1_witness :
    mkIssue "form-submission" validationErrorEC loginScreenB
      ∈ checkMissingEdgeCases loginScreenB (detectPatterns uiPatterns loginScreenB) :=
  (c1_edge_case_emission uiPatterns loginScreenB "form-submission" formSubmissionPattern
    validationErrorEC (by decide) (by decide)).1.mpr (by decide)

/-- Counterexample to claim C1 as stated: in the UI demo analyzer the word
alert is in the common-indicator set and is also a lowercased suggested
component, and it occurs in the flattened text of a screen matching
form-submission; the claim then demands zero issues, yet three are
emitted. -/
theorem c1_counterexample :
    ("alert" ∈ commonIndicators)
    ∧ (strIncludes (uiAllText alertScreen) "alert" = true)
    ∧ ((analyzeLocally [alertScreen] "t").screens.map ScreenAnalysis.detectedPatterns
        = [["form-submission"]])
    ∧ ((analyzeLocally [alertScreen] "t").totalIssues = 3) := by
  refine ⟨by decide, by decide, by decide, by decide⟩
